import Mathlib

/-!
Verification of the netradarshak trigger-dispatch and degradation pipeline.

This file gives a shallow embedding of the parts of the repository that the
properties below are about:

* src/server.py - the Flask gateway: language normalization, the lazy model
  cache (the dictionary named underscore-models), the initialization functions
  init_blip, init_traffic_blip, init_ocr, init_translator, the processing
  functions generate_caption_from_image_path,
  generate_traffic_caption_from_image_path, ocr_from_image_path,
  translate_text, and the three endpoint handlers.
* src/client_RPI_serial.py - the single-threaded keyboard-driven capture
  client (class SerialClient): upload_and_speak, handle_key and the
  endpoint trace of its run_loop.
* src/client.py - the Windows capture client whose main loop recomputes the
  endpoint each iteration and treats every error as recoverable.
* src/client_RPI.py - the GPIO capture client (class RPICaptureClient) whose
  capture_and_send serializes frame reads through a threading.Lock held only
  around take_photo; it is modelled as a small-step interleaving system.

Modelling conventions: opaque external capabilities (BLIP captioning, easyocr,
googletrans, the network, the camera) are parameters gathered in environment
structures; a Python call that may raise is a function into Except Unit.
Confidence values, exact decimals in the source (0.85, 0.5, 0.8, 0.9, 0.0),
are represented in hundredths as natural numbers (85, 50, 80, 90, 0).
The model cache carries two ghost counters, attempts and invocations, that
count entries into an initialization try-body and calls of a ready capability;
they instrument the embedding so that at-most-once properties are statable and
do not influence any computed result.
-/

namespace Netra

/-- Ascii lowercasing of one character, the effect of the Python str.lower
method on the ascii keys and language names this repository uses. -/
def asciiLowerChar (c : Char) : Char :=
  if 65 ≤ c.toNat ∧ c.toNat ≤ 90 then Char.ofNat (c.toNat + 32) else c

/-- Ascii lowercasing of a string (model of str.lower on ascii input). -/
def asciiLower (s : String) : String := String.mk (s.data.map asciiLowerChar)

/-- Whitespace test used by the model of str.strip. -/
def isSpaceChar (c : Char) : Bool := c = ' ' || c = '\t' || c = '\n' || c = '\r'

/-- Model of the Python str.strip method: drop whitespace from both ends. -/
def strip (s : String) : String :=
  String.mk (((s.data.dropWhile isSpaceChar).reverse.dropWhile isSpaceChar).reverse)

/-- Model of the Python " ".join on a list of strings. -/
def joinSpace : List String → String
  | [] => ""
  | [t] => t
  | t :: rest => t ++ " " ++ joinSpace rest

namespace Server

/-- Environment of src/server.py: which optional imports succeeded, whether
each constructor or model load succeeds, and the behaviour of each opaque
capability once constructed. A field of type Except Unit models a Python
call that either returns or raises. tmpName is the fresh path that
tempfile.NamedTemporaryFile picks for the next upload. -/
structure Env where
  /-- BlipProcessor, BlipForConditionalGeneration and torch imported. -/
  blipLib : Bool
  /-- from_pretrained of the captioning model succeeds. -/
  blipLoadOk : Bool
  /-- from_pretrained of the traffic model succeeds. -/
  trafficLoadOk : Bool
  /-- easyocr imported. -/
  ocrLib : Bool
  /-- easyocr.Reader construction succeeds. -/
  ocrCtorOk : Bool
  /-- googletrans imported. -/
  transLib : Bool
  /-- Translator construction succeeds. -/
  transCtorOk : Bool
  /-- Image open, processor, generate and decode for captioning: image path
  to caption text, or a raised exception. -/
  blipRun : String → Except Unit String
  /-- Same for the traffic captioning model. -/
  trafficRun : String → Except Unit String
  /-- reader.readtext: image path to the list of recognized text snippets
  (the second tuple components in the source), or a raised exception. -/
  ocrRun : String → Except Unit (List String)
  /-- translator.translate(text, dest).text, or a raised exception. -/
  transRun : String → String → Except Unit String
  /-- Fresh temporary file path for the next saved upload. -/
  tmpName : String
  /-- The save step of save_upload_to_temp raises: upload.save or the
  subprocess that hands the path to a browser (src/server.py lines 79 to 80)
  throws after NamedTemporaryFile has already created the file on disk. This
  step runs before the try block of every handler, so no finally cleans up
  after it. -/
  saveRaises : Bool
  /-- The os.remove call in the finally block of a handler raises (for
  instance because the browser launched at save time still holds a handle on
  the file); every handler swallows this with an except-pass
  (src/server.py lines 238 to 242, 270 to 274 and 306 to 310). -/
  removeFails : Bool

/-- The lazy model cache, dictionary underscore-models of src/server.py lines
53 to 61. A capability carries no data of its own (its behaviour lives in
Env), so a cached handle is Option Unit: some means a constructed object,
none the Python None that marks both a never-tried and a failed
initialization. attempts and invocations are ghost counters (see the file
comment). -/
structure Models where
  blip_processor : Option Unit
  blip_model : Option Unit
  traffic_blip_processor : Option Unit
  traffic_blip_model : Option Unit
  ocr_reader : Option Unit
  translator : Option Unit
  attempts : Nat
  invocations : Nat
deriving DecidableEq, Repr

/-- The cache at module import time: every holder is None. -/
def models0 : Models :=
  { blip_processor := none, blip_model := none, traffic_blip_processor := none
    traffic_blip_model := none, ocr_reader := none, translator := none
    attempts := 0, invocations := 0 }

/-- The six cached backend handles, without the ghost counters. -/
def Models.handles (m : Models) :
    Option Unit × Option Unit × Option Unit × Option Unit × Option Unit × Option Unit :=
  (m.blip_processor, m.blip_model, m.traffic_blip_processor,
   m.traffic_blip_model, m.ocr_reader, m.translator)

/-- Language alias table LANGUAGE_ALIASES of src/server.py lines 44 to 51. -/
def LANGUAGE_ALIASES : List (String × String) :=
  [("en", "en"), ("english", "en"), ("hi", "hi"), ("hindi", "hi"),
   ("te", "te"), ("telugu", "te")]

/-- normalize_language of src/server.py lines 68 to 72: empty input falls back
to en, otherwise lowercase and look up in the alias table, defaulting to the
lowercased input itself. -/
def normalize_language (lang : String) : String :=
  if lang = "" then "en"
  else
    let l := asciiLower lang
    (LANGUAGE_ALIASES.lookup l).getD l

/-- init_translator of src/server.py lines 88 to 97. When the cached holder is
None: record None if the import failed, otherwise construct (one ghost attempt,
success or raise both cached). A cached non-None holder is returned as is. -/
def init_translator (env : Env) (m : Models) : Models × Option Unit :=
  if m.translator.isNone then
    if !env.transLib then
      ({ m with translator := none }, none)
    else if env.transCtorOk then
      let m2 := { m with translator := some (), attempts := m.attempts + 1 }
      (m2, m2.translator)
    else
      let m2 := { m with translator := none, attempts := m.attempts + 1 }
      (m2, m2.translator)
  else (m, m.translator)

/-- init_blip of src/server.py lines 100 to 113. The guard re-enters the body
whenever either cached holder is None; the except branch writes None back into
both holders, so a failed load leaves the cache in the same shape as a never
tried one. One ghost attempt counts one entry into the try-body. -/
def init_blip (env : Env) (m : Models) : Models × (Option Unit × Option Unit) :=
  if m.blip_model.isNone || m.blip_processor.isNone then
    if !env.blipLib then
      ({ m with blip_processor := none, blip_model := none }, (none, none))
    else if env.blipLoadOk then
      let m2 := { m with blip_processor := some (), blip_model := some ()
                         attempts := m.attempts + 1 }
      (m2, (m2.blip_processor, m2.blip_model))
    else
      let m2 := { m with blip_processor := none, blip_model := none
                         attempts := m.attempts + 1 }
      (m2, (m2.blip_processor, m2.blip_model))
  else (m, (m.blip_processor, m.blip_model))

/-- init_traffic_blip of src/server.py lines 115 to 128, same structure as
init_blip over the traffic holders. -/
def init_traffic_blip (env : Env) (m : Models) : Models × (Option Unit × Option Unit) :=
  if m.traffic_blip_model.isNone || m.traffic_blip_processor.isNone then
    if !env.blipLib then
      ({ m with traffic_blip_processor := none, traffic_blip_model := none }, (none, none))
    else if env.trafficLoadOk then
      let m2 := { m with traffic_blip_processor := some (), traffic_blip_model := some ()
                         attempts := m.attempts + 1 }
      (m2, (m2.traffic_blip_processor, m2.traffic_blip_model))
    else
      let m2 := { m with traffic_blip_processor := none, traffic_blip_model := none
                         attempts := m.attempts + 1 }
      (m2, (m2.traffic_blip_processor, m2.traffic_blip_model))
  else (m, (m.traffic_blip_processor, m.traffic_blip_model))

/-- init_ocr of src/server.py lines 130 to 139. -/
def init_ocr (env : Env) (m : Models) : Models × Option Unit :=
  if m.ocr_reader.isNone then
    if !env.ocrLib then
      ({ m with ocr_reader := none }, none)
    else if env.ocrCtorOk then
      let m2 := { m with ocr_reader := some (), attempts := m.attempts + 1 }
      (m2, m2.ocr_reader)
    else
      let m2 := { m with ocr_reader := none, attempts := m.attempts + 1 }
      (m2, m2.ocr_reader)
  else (m, m.ocr_reader)

/-- Fallback caption of generate_caption_from_image_path (src/server.py lines
150 and 161), returned both when BLIP is unavailable and when the captioning
call raises. -/
def captionSentinel : String := "A sample caption describing the scene."

/-- Fallback OCR text of ocr_from_image_path, src/server.py line 186. -/
def ocrSentinel : String := "Sample OCR: The quick brown fox jumps over the lazy dog."

/-- generate_caption_from_image_path of src/server.py lines 146 to 161.
Returns the caption and its confidence in hundredths: 85 for a live answer,
50 for the fallback. A ready capability that raises at call time is caught
and yields the same fallback pair as the unavailable case. -/
def generate_caption_from_image_path (env : Env) (m : Models) (image_path : String) :
    Models × (String × Nat) :=
  let r := init_blip env m
  match r.2 with
  | (some _, some _) =>
    let m2 := { r.1 with invocations := r.1.invocations + 1 }
    match env.blipRun image_path with
    | .ok caption => (m2, (caption, 85))
    | .error _ => (m2, (captionSentinel, 50))
  | _ => (r.1, (captionSentinel, 50))

/-- generate_traffic_caption_from_image_path of src/server.py lines 164
to 179, identical to the plain captioning pipeline over the traffic model. -/
def generate_traffic_caption_from_image_path (env : Env) (m : Models) (image_path : String) :
    Models × (String × Nat) :=
  let r := init_traffic_blip env m
  match r.2 with
  | (some _, some _) =>
    let m2 := { r.1 with invocations := r.1.invocations + 1 }
    match env.trafficRun image_path with
    | .ok caption => (m2, (caption, 85))
    | .error _ => (m2, (captionSentinel, 50))
  | _ => (r.1, (captionSentinel, 50))

/-- ocr_from_image_path of src/server.py lines 182 to 192. With no reader the
fixed sample pair (sentinel, 80) is returned; with a reader, the recognized
snippets are joined with spaces at confidence 90 (the source expression text
or the empty string is the identity on strings), and a raised readtext is
caught as the pair of the empty string and confidence 0. -/
def ocr_from_image_path (env : Env) (m : Models) (image_path : String) :
    Models × (String × Nat) :=
  let r := init_ocr env m
  match r.2 with
  | none => (r.1, (ocrSentinel, 80))
  | some _ =>
    let m2 := { r.1 with invocations := r.1.invocations + 1 }
    match env.ocrRun image_path with
    | .ok parts => (m2, (joinSpace parts, 90))
    | .error _ => (m2, ("", 0))

/-- translate_text of src/server.py lines 195 to 202: identity when the
translator handle is None or the call raises, otherwise the output of the
capability. There is no special case for the target language. -/
def translate_text (env : Env) (m : Models) (text target_lang : String) :
    Models × String :=
  let r := init_translator env m
  match r.2 with
  | none => (r.1, text)
  | some _ =>
    let m2 := { r.1 with invocations := r.1.invocations + 1 }
    match env.transRun text target_lang with
    | .ok t => (m2, t)
    | .error _ => (m2, text)

/-- HTTP method of a modelled request. -/
inductive Method where
  | GET
  | POST
deriving DecidableEq, Repr

/-- A request to one of the endpoints: the method and the multipart form
files as an association list from field name to client file name. -/
structure Request where
  method : Method
  files : List (String × String)
deriving DecidableEq, Repr

/-- The field lookup shared by the three POST handlers (src/server.py lines
220 to 225, 253 to 258 and 288 to 293): the field image is preferred,
then the field file, else nothing. -/
def request_upload (req : Request) : Option String :=
  match req.files.lookup "image" with
  | some u => some u
  | none => req.files.lookup "file"

/-- The fixed 400 message of the three handlers. -/
def noImageError : String := "No image provided. Use multipart form 'image' or 'file'."

/-- A response of the modelled server: the GET usage help, a client error
with status, or the JSON body of a caption-shaped or OCR-shaped success. -/
inductive Response where
  | help (msg : String)
  | clientError (status : Nat) (msg : String)
  | captionJson (caption caption_en : String) (confidence : Nat) (language : String)
  | ocrJson (text text_en : String) (confidence : Nat) (language : String)
deriving DecidableEq, Repr

/-- Server state: the model cache plus the set of temporary upload files
currently present, as a list of paths. -/
structure ServerState where
  models : Models
  fs : List String
deriving DecidableEq, Repr

/-- save_upload_to_temp of src/server.py lines 75 to 81.
NamedTemporaryFile with delete equal to False creates the file on disk
unconditionally; then upload.save writes into it and a stray subprocess call
hands the path to a browser. Either of the latter two may raise, and both
run before the try block of the calling handler, so on a raise the function
returns the file system with the file already created and the exception
propagating (no path value). The browser handle taken here is also a way the
later os.remove can fail, modelled by the removeFails field of Env. -/
def save_upload_to_temp (env : Env) (fs : List String) (_upload : String) :
    List String × Except Unit String :=
  (env.tmpName :: fs, if env.saveRaises then .error () else .ok env.tmpName)

/-- The finally block shared by the three handlers (src/server.py lines 238
to 242, 270 to 274 and 306 to 310): os.remove inside try-except-pass. When
the removal succeeds the path is erased from the file system; when it raises
the failure is swallowed and the file list is left as it is. -/
def remove_in_finally (env : Env) (fs : List String) (tmp : String) : List String :=
  if env.removeFails then fs else fs.erase tmp

/-- caption_endpoint of src/server.py lines 209 to 242, on the runs where
the pre-try save step returns (upload.save and the browser subprocess do not
raise). GET returns help; POST without an accepted field returns the fixed
400 error; otherwise the upload sits at the created temporary path, the body
runs, and the finally block attempts removal of that path, swallowing a
failed remove. The runs where the save step raises are covered by
caption_post_full below, of which this function is the proved no-raise
projection. -/
def caption_endpoint (env : Env) (s : ServerState) (lang : String) (req : Request) :
    ServerState × Response :=
  let target_lang := normalize_language lang
  match req.method with
  | .GET => (s, .help "POST an image as multipart form-data to receive a caption.")
  | .POST =>
    match request_upload req with
    | none => (s, .clientError 400 noImageError)
    | some _upload =>
      let created := env.tmpName :: s.fs
      let r1 := generate_caption_from_image_path env s.models env.tmpName
      let r2 := translate_text env r1.1 r1.2.1 target_lang
      ({ models := r2.1, fs := remove_in_finally env created env.tmpName },
       .captionJson r2.2 r1.2.1 r1.2.2 target_lang)

/-- traffic_endpoint of src/server.py lines 244 to 274: like the caption
endpoint but over the traffic model, with no translation and the language
fixed to en; same no-raise restriction and same best-effort finally
removal, the raising save runs being covered by traffic_post_full. -/
def traffic_endpoint (env : Env) (s : ServerState) (req : Request) :
    ServerState × Response :=
  match req.method with
  | .GET => (s, .help "POST an image as multipart form-data to receive traffic-related information.")
  | .POST =>
    match request_upload req with
    | none => (s, .clientError 400 noImageError)
    | some _upload =>
      let created := env.tmpName :: s.fs
      let r1 := generate_traffic_caption_from_image_path env s.models env.tmpName
      ({ models := r1.1, fs := remove_in_finally env created env.tmpName },
       .captionJson r1.2.1 r1.2.1 r1.2.2 "en")

/-- ocr_endpoint of src/server.py lines 277 to 310, the OCR analogue of the
caption endpoint; same no-raise restriction and same best-effort finally
removal, the raising save runs being covered by ocr_post_full. -/
def ocr_endpoint (env : Env) (s : ServerState) (lang : String) (req : Request) :
    ServerState × Response :=
  let target_lang := normalize_language lang
  match req.method with
  | .GET => (s, .help "POST an image as multipart form-data to receive OCR text.")
  | .POST =>
    match request_upload req with
    | none => (s, .clientError 400 noImageError)
    | some _upload =>
      let created := env.tmpName :: s.fs
      let r1 := ocr_from_image_path env s.models env.tmpName
      let r2 := translate_text env r1.1 r1.2.1 target_lang
      ({ models := r2.1, fs := remove_in_finally env created env.tmpName },
       .ocrJson r2.2 r1.2.1 r1.2.2 target_lang)

/-- Full model of the caption handler of src/server.py lines 209 to 242,
covering every run: after method and payload checks, save_upload_to_temp
creates the temporary file and may raise before the try block, in which case
the exception propagates out of the handler (the error value; Flask turns it
into a 500) with the created file leaked and no finally executed. When the
save step returns, the body runs and the finally attempts removal, swallowing
a failed remove. -/
def caption_post_full (env : Env) (s : ServerState) (lang : String) (req : Request) :
    ServerState × Except Unit Response :=
  let target_lang := normalize_language lang
  match req.method with
  | .GET => (s, .ok (.help "POST an image as multipart form-data to receive a caption."))
  | .POST =>
    match request_upload req with
    | none => (s, .ok (.clientError 400 noImageError))
    | some upload =>
      let saved := save_upload_to_temp env s.fs upload
      match saved.2 with
      | .error _ => ({ models := s.models, fs := saved.1 }, .error ())
      | .ok tmp =>
        let r1 := generate_caption_from_image_path env s.models tmp
        let r2 := translate_text env r1.1 r1.2.1 target_lang
        ({ models := r2.1, fs := remove_in_finally env saved.1 tmp },
         .ok (.captionJson r2.2 r1.2.1 r1.2.2 target_lang))

/-- Full model of the traffic handler of src/server.py lines 244 to 274,
with the same save-raise and best-effort removal behaviour as
caption_post_full. -/
def traffic_post_full (env : Env) (s : ServerState) (req : Request) :
    ServerState × Except Unit Response :=
  match req.method with
  | .GET => (s, .ok (.help "POST an image as multipart form-data to receive traffic-related information."))
  | .POST =>
    match request_upload req with
    | none => (s, .ok (.clientError 400 noImageError))
    | some upload =>
      let saved := save_upload_to_temp env s.fs upload
      match saved.2 with
      | .error _ => ({ models := s.models, fs := saved.1 }, .error ())
      | .ok tmp =>
        let r1 := generate_traffic_caption_from_image_path env s.models tmp
        ({ models := r1.1, fs := remove_in_finally env saved.1 tmp },
         .ok (.captionJson r1.2.1 r1.2.1 r1.2.2 "en"))

/-- Full model of the OCR handler of src/server.py lines 277 to 310, with
the same save-raise and best-effort removal behaviour as
caption_post_full. -/
def ocr_post_full (env : Env) (s : ServerState) (lang : String) (req : Request) :
    ServerState × Except Unit Response :=
  let target_lang := normalize_language lang
  match req.method with
  | .GET => (s, .ok (.help "POST an image as multipart form-data to receive OCR text."))
  | .POST =>
    match request_upload req with
    | none => (s, .ok (.clientError 400 noImageError))
    | some upload =>
      let saved := save_upload_to_temp env s.fs upload
      match saved.2 with
      | .error _ => ({ models := s.models, fs := saved.1 }, .error ())
      | .ok tmp =>
        let r1 := ocr_from_image_path env s.models tmp
        let r2 := translate_text env r1.1 r1.2.1 target_lang
        ({ models := r2.1, fs := remove_in_finally env saved.1 tmp },
         .ok (.ocrJson r2.2 r1.2.1 r1.2.2 target_lang))

end Server

namespace SerialClient

/-- Environment of src/client_RPI_serial.py: whether the camera read
succeeds, and the upload as a function from the endpoint to either the text
extracted from the JSON response (the chain of get calls in the source, which
may find none) or a raised error. A raised error covers every failure of the
post, of raise_for_status on a non-2xx status, and of the JSON decode. -/
structure Env where
  captureOk : Bool
  upload : String → Except Unit (Option String)

/-- State of class SerialClient: the sticky endpoint selector
current_endpoint, the stop flag, and whether the camera is open. -/
structure State where
  current_endpoint : String
  stop : Bool
  cameraOpen : Bool
deriving DecidableEq, Repr

/-- State right after the constructor of SerialClient. -/
def initState : State :=
  { current_endpoint := "/caption/en", stop := false, cameraOpen := true }

/-- Outcome of one upload_and_speak call: a capture failure skips the cycle,
a response is printed and spoken, exited is the os level process exit. -/
inductive Outcome where
  | captureFailed
  | responded (text : Option String)
  | exited (code : Nat)
deriving DecidableEq, Repr

/-- upload_and_speak of src/client_RPI_serial.py lines 130 to 153. A failed
device read prints and returns (the loop continues). A raised upload error
prints, closes the camera and then exits the whole process with code 1. -/
def upload_and_speak (env : Env) (s : State) : State × Outcome :=
  if !env.captureOk then (s, .captureFailed)
  else
    match env.upload s.current_endpoint with
    | .ok text => (s, .responded text)
    | .error _ => ({ s with cameraOpen := false }, .exited 1)

/-- handle_key of src/client_RPI_serial.py lines 155 to 172 (named with a
leading underscore in the source). Empty input returns at once; otherwise the
key is stripped and lowercased, q sets the stop flag, 1, 2 and 3 overwrite
the endpoint selector, and anything else only prints. -/
def handle_key (s : State) (ch : String) : State :=
  if ch = "" then s
  else
    let c := asciiLower (strip ch)
    if c = "q" then { s with stop := true }
    else if c = "1" then { s with current_endpoint := "/ocr/en" }
    else if c = "2" then { s with current_endpoint := "/traffic" }
    else if c = "3" then { s with current_endpoint := "/search" }
    else s

/-- Endpoint trace of run_loop (src/client_RPI_serial.py lines 174 to 204):
each cycle first uploads to the currently selected endpoint, then handles the
keys pressed during the wait interval. The argument lists the keys seen in
each cycle; the result lists the endpoint each cycle uploaded to. -/
def run_cycles (s : State) : List (List String) → List String
  | [] => []
  | keys :: rest =>
    let used := s.current_endpoint
    let s2 := keys.foldl handle_key s
    used :: run_cycles s2 rest

end SerialClient

namespace KeyClient

/-- Environment of src/client.py: camera read success and the upload outcome
per endpoint (ok with the extracted response text, or a raised error covering
network failures, timeouts, non-2xx statuses and JSON decode failures). -/
structure Env where
  captureOk : Bool
  upload : String → Except Unit (Option String)

/-- Value of the variable caption_endpoint in main of src/client.py. -/
def caption_endpoint_url : String := "/caption/en"

/-- Value of the variable named ocr_endpoint in main of src/client.py; note
that the source binds it to the traffic path, not to /ocr/en. -/
def ocr_endpoint_url : String := "/traffic"

/-- Endpoint selection of one loop iteration (src/client.py lines 75 to 83):
each iteration starts from the default caption endpoint and switches for this
iteration only when d was pressed since the last poll. -/
def select_endpoint (d_pressed : Bool) : String :=
  if d_pressed then ocr_endpoint_url else caption_endpoint_url

/-- Endpoints used by successive iterations, one per element of the list of
d-press observations: the selector is recomputed from the default every
iteration, so an override never outlives its own iteration. -/
def endpoints_used : List Bool → List String
  | [] => []
  | d :: rest => select_endpoint d :: endpoints_used rest

/-- Outcome of one iteration of the main loop of src/client.py. Every
constructor continues the loop: a capture failure sleeps and retries, a
response is spoken, and a raised upload error is caught by the broad except
branch at lines 104 to 106, printed, slept on for two seconds and retried.
No outcome terminates the process. -/
inductive Outcome where
  | captureFailed
  | responded (text : Option String)
  | uploadErrorHandled
deriving DecidableEq, Repr

/-- One iteration of the while loop in main of src/client.py lines 75
to 106. -/
def iteration (env : Env) (d_pressed : Bool) : Outcome :=
  if !env.captureOk then .captureFailed
  else
    match env.upload (select_endpoint d_pressed) with
    | .ok text => .responded text
    | .error _ => .uploadErrorHandled

/-- The outcomes of a run of the loop over a finite schedule of d-press
observations; the loop continues unconditionally after every outcome,
mirroring that only KeyboardInterrupt leaves the loop in the source. -/
def run (env : Env) : List Bool → List Outcome
  | [] => []
  | d :: rest => iteration env d :: run env rest

end KeyClient

namespace Guard

/-- Program counter of one unit of work running capture_and_send of
src/client_RPI.py lines 109 to 125: idle before the trigger, wantLock while
blocked on capture_lock, reading inside the with-block (the device read plus
the encode in take_photo), uploading and speaking after the lock is
released, done at the end. -/
inductive PC where
  | idle
  | wantLock
  | reading
  | uploading
  | speaking
  | done
deriving DecidableEq, Repr

/-- Global state of the client under n concurrent trigger units: who holds
capture_lock, and each unit's program counter. -/
structure Sys (n : Nat) where
  lockOwner : Option (Fin n)
  pc : Fin n → PC

/-- Initial state: the lock is free and every unit is idle. -/
def Sys.start (n : Nat) : Sys n := ⟨none, fun _ => .idle⟩

/-- Interleaving small-step semantics of capture_and_send. A unit enters the
with-block only when the lock is free and then owns it; leaving the read
releases the lock (whether the read succeeded or not; a failed read skips
upload and speech); upload and speech run without the lock. -/
inductive Step {n : Nat} : Sys n → Sys n → Prop where
  | trigger (s : Sys n) (i : Fin n) :
      s.pc i = .idle →
      Step s ⟨s.lockOwner, Function.update s.pc i .wantLock⟩
  | acquire (s : Sys n) (i : Fin n) :
      s.pc i = .wantLock → s.lockOwner = none →
      Step s ⟨some i, Function.update s.pc i .reading⟩
  | readDone (s : Sys n) (i : Fin n) (ok : Bool) :
      s.pc i = .reading → s.lockOwner = some i →
      Step s ⟨none, Function.update s.pc i (if ok then .uploading else .done)⟩
  | uploadDone (s : Sys n) (i : Fin n) :
      s.pc i = .uploading →
      Step s ⟨s.lockOwner, Function.update s.pc i .speaking⟩
  | speakDone (s : Sys n) (i : Fin n) :
      s.pc i = .speaking →
      Step s ⟨s.lockOwner, Function.update s.pc i .done⟩

/-- States reachable from the initial state by any interleaving. -/
inductive Reachable {n : Nat} : Sys n → Prop where
  | start : Reachable (Sys.start n)
  | step {s t : Sys n} : Reachable s → Step s t → Reachable t

end Guard

/-!
Concrete environments, requests and states used by the counterexamples and
the witnesses below.
-/

/-- Baseline server environment: no optional library imported, every
capability call raises, a fixed fresh temporary path. -/
def baseEnv : Server.Env :=
  { blipLib := false, blipLoadOk := false, trafficLoadOk := false
    ocrLib := false, ocrCtorOk := false, transLib := false, transCtorOk := false
    blipRun := fun _ => .error (), trafficRun := fun _ => .error ()
    ocrRun := fun _ => .error (), transRun := fun _ _ => .error ()
    tmpName := "/tmp/upload_aa.jpg", saveRaises := false, removeFails := false }

/-- Environment where the os.remove of the finally block raises (the browser
started at save time still holds the file); everything else as in the
baseline environment. -/
def envRemoveFails : Server.Env := { baseEnv with removeFails := true }

/-- Environment where upload.save (or the browser subprocess) raises after
the temporary file has been created, before the try block of the handler. -/
def envSaveRaises : Server.Env := { baseEnv with saveRaises := true }

/-- Environment where the BLIP libraries import but the model load raises. -/
def envBlipLoadFail : Server.Env := { baseEnv with blipLib := true }

/-- Environment where every backend initializes and answers. -/
def envAllReady : Server.Env :=
  { baseEnv with
    blipLib := true, blipLoadOk := true, trafficLoadOk := true
    ocrLib := true, ocrCtorOk := true, transLib := true, transCtorOk := true
    blipRun := fun _ => .ok "a dog running"
    trafficRun := fun _ => .ok "a busy road"
    ocrRun := fun _ => .ok ["STOP"]
    transRun := fun t _ => .ok ("tr " ++ t) }

/-- Environment where every backend initializes but every capability call
raises at call time. -/
def envCallThrow : Server.Env :=
  { baseEnv with
    blipLib := true, blipLoadOk := true, trafficLoadOk := true
    ocrLib := true, ocrCtorOk := true, transLib := true, transCtorOk := true }

/-- Environment with only a translator, which rewrites every input to a
fixed different string. -/
def envTransMangle : Server.Env :=
  { baseEnv with transLib := true, transCtorOk := true
                 transRun := fun _ _ => .ok "HELLO" }

/-- Environment with the OCR backend unavailable and a translator that
rewrites every input. -/
def envOcrDownTransMangle : Server.Env :=
  { baseEnv with transLib := true, transCtorOk := true
                 transRun := fun _ _ => .ok "mangled" }

/-- Environment with a healthy captioning backend and a translator whose
calls raise. -/
def envCaptionOkTransThrow : Server.Env :=
  { baseEnv with blipLib := true, blipLoadOk := true
                 blipRun := fun _ => .ok "a dog running"
                 transLib := true, transCtorOk := true }

/-- A POST request carrying the upload under the field named file. -/
def reqFile : Server.Request := { method := .POST, files := [("file", "photo.jpg")] }

/-- A POST request whose form has neither accepted field. -/
def reqNoImage : Server.Request := { method := .POST, files := [("other", "x.bin")] }

/-- Fresh server state: the import-time cache and no temporary files. -/
def state0 : Server.ServerState := { models := Server.models0, fs := [] }

/-- Serial client environment where the capture succeeds and every upload
raises. -/
def serialEnvUploadFail : SerialClient.Env :=
  { captureOk := true, upload := fun _ => .error () }

/-- Serial client environment where the device read fails. -/
def serialEnvNoCapture : SerialClient.Env :=
  { captureOk := false, upload := fun _ => .error () }

/-- Environment of src/client.py where the capture succeeds and every upload
raises. -/
def keyEnvUploadFail : KeyClient.Env :=
  { captureOk := true, upload := fun _ => .error () }

/-!
Helper lemmas shared by several claim theorems.
-/

theorem init_blip_ready_state (env : Server.Env) (m : Server.Models)
    (h : (Server.init_blip env m).2 = (some (), some ())) :
    (Server.init_blip env m).1.blip_processor = some () ∧
      (Server.init_blip env m).1.blip_model = some () := by
  unfold Server.init_blip at *
  split at h
  · split at h
    · simp_all
    · split at h <;> simp_all
  · simp_all

theorem init_blip_cached (env : Server.Env) (m : Server.Models)
    (h1 : m.blip_processor = some ()) (h2 : m.blip_model = some ()) :
    Server.init_blip env m = (m, (some (), some ())) := by
  simp [Server.init_blip, h1, h2]

theorem init_traffic_ready_state (env : Server.Env) (m : Server.Models)
    (h : (Server.init_traffic_blip env m).2 = (some (), some ())) :
    (Server.init_traffic_blip env m).1.traffic_blip_processor = some () ∧
      (Server.init_traffic_blip env m).1.traffic_blip_model = some () := by
  unfold Server.init_traffic_blip at *
  split at h
  · split at h
    · simp_all
    · split at h <;> simp_all
  · simp_all

theorem init_traffic_cached (env : Server.Env) (m : Server.Models)
    (h1 : m.traffic_blip_processor = some ()) (h2 : m.traffic_blip_model = some ()) :
    Server.init_traffic_blip env m = (m, (some (), some ())) := by
  simp [Server.init_traffic_blip, h1, h2]

theorem init_ocr_ready_state (env : Server.Env) (m : Server.Models)
    (h : (Server.init_ocr env m).2 = some ()) :
    (Server.init_ocr env m).1.ocr_reader = some () := by
  unfold Server.init_ocr at *
  split at h
  · split at h
    · simp_all
    · split at h <;> simp_all
  · simp_all

theorem init_ocr_cached (env : Server.Env) (m : Server.Models)
    (h : m.ocr_reader = some ()) :
    Server.init_ocr env m = (m, some ()) := by
  simp [Server.init_ocr, h]

theorem init_translator_ready_state (env : Server.Env) (m : Server.Models)
    (h : (Server.init_translator env m).2 = some ()) :
    (Server.init_translator env m).1.translator = some () := by
  unfold Server.init_translator at *
  split at h
  · split at h
    · simp_all
    · split at h <;> simp_all
  · simp_all

theorem init_translator_cached (env : Server.Env) (m : Server.Models)
    (h : m.translator = some ()) :
    Server.init_translator env m = (m, some ()) := by
  simp [Server.init_translator, h]

theorem translate_text_id_of_none (env : Server.Env) (m : Server.Models)
    (text lang : String) (h : (Server.init_translator env m).2 = none) :
    (Server.translate_text env m text lang).2 = text := by
  simp only [Server.translate_text, h]

theorem translate_text_id_of_error (env : Server.Env) (m : Server.Models)
    (text lang : String) (h : env.transRun text lang = .error ()) :
    (Server.translate_text env m text lang).2 = text := by
  rcases ht : (Server.init_translator env m).2 with _ | u
  · simp only [Server.translate_text, ht]
  · simp only [Server.translate_text, ht, h]

/-!
Claim C1.
-/

/-- C1 counterexample. The claim says initialization is attempted at most
once per backend kind per process lifetime even when the first attempt fails.
In the environment where the BLIP libraries import but the model load raises,
the first init_blip call performs one attempt, records None in both holders,
and the second call re-enters the try-body and performs a second attempt: the
attempt counter reaches 2. -/
theorem blip_failed_init_is_retried :
    (Server.init_blip envBlipLoadFail Server.models0).1.attempts = 1 ∧
    (Server.init_blip envBlipLoadFail
        (Server.init_blip envBlipLoadFail Server.models0).1).1.attempts = 2 ∧
    ¬ (2 : Nat) ≤ 1 := by
  refine ⟨rfl, rfl, by decide⟩

/-- C1 amended: initialization is cached only once it has succeeded. After a
call for a kind returns a constructed capability, every further call for that
kind returns the same cached state and result and performs no new attempt
(the state, including the ghost attempt counter, is returned unchanged). A
failed initialization, by contrast, is recorded as None and re-attempted: in
any failed-load cache state, a call with the libraries importable but the
load failing performs one more attempt. -/
theorem backend_init_cached_only_after_success (env : Server.Env) (m : Server.Models) :
    ((Server.init_blip env m).2 = (some (), some ()) →
      Server.init_blip env (Server.init_blip env m).1
        = ((Server.init_blip env m).1, (some (), some ()))) ∧
    ((Server.init_traffic_blip env m).2 = (some (), some ()) →
      Server.init_traffic_blip env (Server.init_traffic_blip env m).1
        = ((Server.init_traffic_blip env m).1, (some (), some ()))) ∧
    ((Server.init_ocr env m).2 = some () →
      Server.init_ocr env (Server.init_ocr env m).1
        = ((Server.init_ocr env m).1, some ())) ∧
    ((Server.init_translator env m).2 = some () →
      Server.init_translator env (Server.init_translator env m).1
        = ((Server.init_translator env m).1, some ())) ∧
    (env.blipLib = true → env.blipLoadOk = false → m.blip_model = none →
      (Server.init_blip env m).1.attempts = m.attempts + 1) := by
  refine ⟨?_, ?_, ?_, ?_, ?_⟩
  · intro h
    obtain ⟨h1, h2⟩ := init_blip_ready_state env m h
    exact init_blip_cached env _ h1 h2
  · intro h
    obtain ⟨h1, h2⟩ := init_traffic_ready_state env m h
    exact init_traffic_cached env _ h1 h2
  · intro h
    exact init_ocr_cached env _ (init_ocr_ready_state env m h)
  · intro h
    exact init_translator_cached env _ (init_translator_ready_state env m h)
  · intro hlib hload hmodel
    simp [Server.init_blip, hmodel, hlib, hload]

/-- C1 witness: the cached-after-success conjuncts applied in the
all-backends-ready environment starting from the import-time cache, and the
retry conjunct applied in the failing-load environment. -/
theorem backend_init_cached_only_after_success_witness :
    (Server.init_blip envAllReady (Server.init_blip envAllReady Server.models0).1
        = ((Server.init_blip envAllReady Server.models0).1, (some (), some ()))) ∧
    (Server.init_traffic_blip envAllReady
        (Server.init_traffic_blip envAllReady Server.models0).1
        = ((Server.init_traffic_blip envAllReady Server.models0).1, (some (), some ()))) ∧
    (Server.init_ocr envAllReady (Server.init_ocr envAllReady Server.models0).1
        = ((Server.init_ocr envAllReady Server.models0).1, some ())) ∧
    (Server.init_translator envAllReady (Server.init_translator envAllReady Server.models0).1
        = ((Server.init_translator envAllReady Server.models0).1, some ())) ∧
    (Server.init_blip envBlipLoadFail Server.models0).1.attempts
        = Server.models0.attempts + 1 :=
  ⟨(backend_init_cached_only_after_success envAllReady Server.models0).1 rfl,
   (backend_init_cached_only_after_success envAllReady Server.models0).2.1 rfl,
   (backend_init_cached_only_after_success envAllReady Server.models0).2.2.1 rfl,
   (backend_init_cached_only_after_success envAllReady Server.models0).2.2.2.1 rfl,
   (backend_init_cached_only_after_success envBlipLoadFail Server.models0).2.2.2.2
     rfl rfl rfl⟩

/-!
Claim C2.
-/

/-- C2 counterexample. The claim says a call-time throw yields the same fixed
sentinel result as the Unavailable case for every pipeline kind. For the OCR
pipeline this fails: with a constructed reader whose readtext call raises the
result is the empty string at confidence 0, while the Unavailable case
returns the fixed OCR sample text at confidence 80 (0.8 in the source). -/
theorem ocr_call_throw_not_same_as_unavailable :
    (Server.ocr_from_image_path envCallThrow Server.models0 "frame.jpg").2 = ("", 0) ∧
    (Server.ocr_from_image_path baseEnv Server.models0 "frame.jpg").2
      = (Server.ocrSentinel, 80) ∧
    (("", 0) : String × Nat) ≠ (Server.ocrSentinel, 80) :=
  ⟨rfl, rfl, by decide⟩

/-- C2 amended: for the captioning and traffic-captioning pipelines a
call-time throw is treated exactly like Unavailable (same sentinel text, same
confidence 50); for the OCR pipeline a call-time throw yields the empty
string at confidence 0, different from the Unavailable fallback; and in every
pipeline the cached backend handles after the call equal the handles after
initialization alone, so a failing invocation never changes the cached
state. -/
theorem call_throw_like_unavailable_except_ocr
    (env : Server.Env) (m : Server.Models) (p : String) :
    ((Server.init_blip env m).2 = (some (), some ()) → env.blipRun p = .error () →
      (Server.generate_caption_from_image_path env m p).2 = (Server.captionSentinel, 50)) ∧
    ((Server.init_blip env m).2.1 = none ∨ (Server.init_blip env m).2.2 = none →
      (Server.generate_caption_from_image_path env m p).2 = (Server.captionSentinel, 50)) ∧
    ((Server.init_traffic_blip env m).2 = (some (), some ()) → env.trafficRun p = .error () →
      (Server.generate_traffic_caption_from_image_path env m p).2
        = (Server.captionSentinel, 50)) ∧
    ((Server.init_traffic_blip env m).2.1 = none ∨ (Server.init_traffic_blip env m).2.2 = none →
      (Server.generate_traffic_caption_from_image_path env m p).2
        = (Server.captionSentinel, 50)) ∧
    ((Server.init_ocr env m).2 = some () → env.ocrRun p = .error () →
      (Server.ocr_from_image_path env m p).2 = ("", 0)) ∧
    ((Server.init_ocr env m).2 = none →
      (Server.ocr_from_image_path env m p).2 = (Server.ocrSentinel, 80)) ∧
    ((Server.generate_caption_from_image_path env m p).1.handles
        = (Server.init_blip env m).1.handles) ∧
    ((Server.generate_traffic_caption_from_image_path env m p).1.handles
        = (Server.init_traffic_blip env m).1.handles) ∧
    ((Server.ocr_from_image_path env m p).1.handles
        = (Server.init_ocr env m).1.handles) := by
  refine ⟨?_, ?_, ?_, ?_, ?_, ?_, ?_, ?_, ?_⟩
  · intro h1 h2
    simp only [Server.generate_caption_from_image_path, h1, h2]
  · intro h
    unfold Server.generate_caption_from_image_path
    rcases hpm : (Server.init_blip env m).2 with ⟨op, om⟩
    rw [hpm] at h
    cases op <;> cases om <;> simp_all
  · intro h1 h2
    simp only [Server.generate_traffic_caption_from_image_path, h1, h2]
  · intro h
    unfold Server.generate_traffic_caption_from_image_path
    rcases hpm : (Server.init_traffic_blip env m).2 with ⟨op, om⟩
    rw [hpm] at h
    cases op <;> cases om <;> simp_all
  · intro h1 h2
    simp only [Server.ocr_from_image_path, h1, h2]
  · intro h
    simp only [Server.ocr_from_image_path, h]
  · unfold Server.generate_caption_from_image_path
    rcases hpm : (Server.init_blip env m).2 with ⟨op, om⟩
    cases op <;> cases om <;> simp only [hpm] <;>
      cases env.blipRun p <;> simp [Server.Models.handles]
  · unfold Server.generate_traffic_caption_from_image_path
    rcases hpm : (Server.init_traffic_blip env m).2 with ⟨op, om⟩
    cases op <;> cases om <;> simp only [hpm] <;>
      cases env.trafficRun p <;> simp [Server.Models.handles]
  · unfold Server.ocr_from_image_path
    rcases hpm : (Server.init_ocr env m).2 with _ | u
    · simp [hpm, Server.Models.handles]
    · simp only [hpm]
      cases env.ocrRun p <;> simp [Server.Models.handles]

/-- C2 witness: the throw conjuncts applied in the everything-throws
environment, the unavailable conjuncts in the no-libraries environment, and
the handle-preservation conjuncts in the everything-throws environment, all
from the import-time cache on a concrete frame path. -/
theorem call_throw_like_unavailable_except_ocr_witness :
    (Server.generate_caption_from_image_path envCallThrow Server.models0 "f.jpg").2
        = (Server.captionSentinel, 50) ∧
    (Server.generate_caption_from_image_path baseEnv Server.models0 "f.jpg").2
        = (Server.captionSentinel, 50) ∧
    (Server.generate_traffic_caption_from_image_path envCallThrow Server.models0 "f.jpg").2
        = (Server.captionSentinel, 50) ∧
    (Server.ocr_from_image_path envCallThrow Server.models0 "f.jpg").2 = ("", 0) ∧
    (Server.ocr_from_image_path baseEnv Server.models0 "f.jpg").2
        = (Server.ocrSentinel, 80) ∧
    (Server.ocr_from_image_path envCallThrow Server.models0 "f.jpg").1.handles
        = (Server.init_ocr envCallThrow Server.models0).1.handles :=
  ⟨(call_throw_like_unavailable_except_ocr envCallThrow Server.models0 "f.jpg").1 rfl rfl,
   (call_throw_like_unavailable_except_ocr baseEnv Server.models0 "f.jpg").2.1 (Or.inl rfl),
   (call_throw_like_unavailable_except_ocr envCallThrow Server.models0 "f.jpg").2.2.1 rfl rfl,
   (call_throw_like_unavailable_except_ocr envCallThrow Server.models0 "f.jpg").2.2.2.2.1 rfl rfl,
   (call_throw_like_unavailable_except_ocr baseEnv Server.models0 "f.jpg").2.2.2.2.2.1 rfl,
   (call_throw_like_unavailable_except_ocr envCallThrow Server.models0 "f.jpg").2.2.2.2.2.2.2.2⟩

/-!
Claim C3.
-/

/-- C3 counterexample. The claim says every upload failure on the capture
side is fatal for the whole process. The capture client of src/client.py
contradicts it: its loop catches the raised upload error at lines 104 to 106,
prints it, sleeps and continues, so after a failed upload the loop runs a
further full iteration instead of terminating. -/
theorem key_client_upload_failure_is_recoverable :
    KeyClient.run keyEnvUploadFail [false, false]
      = [.uploadErrorHandled, .uploadErrorHandled] ∧
    (KeyClient.Outcome.uploadErrorHandled ≠ .captureFailed) :=
  ⟨rfl, by decide⟩

/-- C3 amended: in the serial capture client of src/client_RPI_serial.py an
upload failure is fatal - the camera is released (cameraOpen becomes false)
and the process exits with code 1 - while a device-read failure only skips
the cycle with the state unchanged; in the capture client of src/client.py
an upload failure is caught and the loop continues, so the fail-fast policy
holds only for the serial client. -/
theorem upload_failure_fatal_only_in_serial_client
    (se : SerialClient.Env) (s : SerialClient.State)
    (ke : KeyClient.Env) (d : Bool) :
    (se.captureOk = true → se.upload s.current_endpoint = .error () →
      SerialClient.upload_and_speak se s = ({ s with cameraOpen := false }, .exited 1)) ∧
    (se.captureOk = false →
      SerialClient.upload_and_speak se s = (s, .captureFailed)) ∧
    (ke.captureOk = true → ke.upload (KeyClient.select_endpoint d) = .error () →
      KeyClient.iteration ke d = .uploadErrorHandled) := by
  refine ⟨?_, ?_, ?_⟩
  · intro h1 h2
    simp [SerialClient.upload_and_speak, h1, h2]
  · intro h1
    simp [SerialClient.upload_and_speak, h1]
  · intro h1 h2
    simp [KeyClient.iteration, h1, h2]

/-- C3 witness: the three conjuncts applied in the failing-upload and
failing-capture environments at the initial serial state. -/
theorem upload_failure_fatal_only_in_serial_client_witness :
    SerialClient.upload_and_speak serialEnvUploadFail SerialClient.initState
      = ({ SerialClient.initState with cameraOpen := false }, .exited 1) ∧
    SerialClient.upload_and_speak serialEnvNoCapture SerialClient.initState
      = (SerialClient.initState, .captureFailed) ∧
    KeyClient.iteration keyEnvUploadFail false = .uploadErrorHandled :=
  ⟨(upload_failure_fatal_only_in_serial_client serialEnvUploadFail
      SerialClient.initState keyEnvUploadFail false).1 rfl rfl,
   (upload_failure_fatal_only_in_serial_client serialEnvNoCapture
      SerialClient.initState keyEnvUploadFail false).2.1 rfl,
   (upload_failure_fatal_only_in_serial_client serialEnvNoCapture
      SerialClient.initState keyEnvUploadFail false).2.2 rfl rfl⟩

/-!
Claim C4.
-/

/-- C4 counterexample. The claim says a recognized key changes the endpoint
for the next capture only, after which the selector reverts to the default.
In the serial client the selector is sticky: after the key 1 is pressed
during the first cycle, both the second and the third cycle upload to
/ocr/en; a one-shot override would have the third cycle back at the default
/caption/en. -/
theorem serial_key_override_is_sticky :
    SerialClient.run_cycles SerialClient.initState [["1"], [], []]
      = ["/caption/en", "/ocr/en", "/ocr/en"] ∧
    ("/ocr/en" : String) ≠ "/caption/en" :=
  ⟨by decide, by decide⟩

/-- C4 amended: in the serial client a recognized endpoint key rewrites the
persistent selector, which then stays until the next recognized key (with no
keys pressed, every later cycle reuses it); an unrecognized key leaves the
state unchanged, and the quit key only sets the stop flag, leaving the
selector unchanged. In the client of src/client.py the selection is truly
one-shot: every iteration recomputes the endpoint from the default, using the
override exactly when its key was pressed in that iteration. -/
theorem endpoint_key_selection
    (s : SerialClient.State) (k : String) (ds : List Bool) (n : Nat) :
    (¬ asciiLower (strip k) ∈ (["q", "1", "2", "3"] : List String) →
      SerialClient.handle_key s k = s) ∧
    ((SerialClient.handle_key s "q").stop = true ∧
      (SerialClient.handle_key s "q").current_endpoint = s.current_endpoint) ∧
    (SerialClient.run_cycles s (List.replicate n [])
      = List.replicate n s.current_endpoint) ∧
    (KeyClient.endpoints_used ds = ds.map KeyClient.select_endpoint) ∧
    ((KeyClient.endpoints_used (true :: false :: ds)).take 2
      = [KeyClient.ocr_endpoint_url, KeyClient.caption_endpoint_url]) := by
  refine ⟨?_, ?_, ?_, ?_, ?_⟩
  · intro h
    by_cases hk : k = ""
    · simp [SerialClient.handle_key, hk]
    · simp only [List.mem_cons, List.not_mem_nil, or_false, not_or] at h
      obtain ⟨hq, h1, h2, h3⟩ := h
      simp [SerialClient.handle_key, hk, hq, h1, h2, h3]
  · have hq : asciiLower (strip "q") = "q" := by decide
    constructor <;> simp [SerialClient.handle_key, hq]
  · induction n with
    | zero => simp [SerialClient.run_cycles]
    | succ n ih =>
      simp [SerialClient.run_cycles, List.replicate_succ, List.foldl_nil, ih]
  · induction ds with
    | nil => simp [KeyClient.endpoints_used]
    | cons d rest ih => simp [KeyClient.endpoints_used, ih]
  · simp [KeyClient.endpoints_used, KeyClient.select_endpoint]

/-- C4 witness: the unrecognized-key conjunct applied to the key x at the
initial state, together with the other conjuncts at concrete inputs. -/
theorem endpoint_key_selection_witness :
    SerialClient.handle_key SerialClient.initState "x" = SerialClient.initState ∧
    (SerialClient.handle_key SerialClient.initState "q").stop = true ∧
    SerialClient.run_cycles SerialClient.initState (List.replicate 2 [])
      = List.replicate 2 SerialClient.initState.current_endpoint ∧
    KeyClient.endpoints_used [true] = [true].map KeyClient.select_endpoint :=
  ⟨(endpoint_key_selection SerialClient.initState "x" [true] 2).1 (by decide),
   (endpoint_key_selection SerialClient.initState "x" [true] 2).2.1.1,
   (endpoint_key_selection SerialClient.initState "x" [true] 2).2.2.1,
   (endpoint_key_selection SerialClient.initState "x" [true] 2).2.2.2.1⟩

/-!
Claim C5.
-/

/-- C5 counterexample. The claim says translate is the identity whenever the
target language is en. The source has no such special case: with a working
translator whose call rewrites the input, translating hello with target en
returns the rewritten string, not the input. -/
theorem translate_en_not_identity :
    (Server.translate_text envTransMangle Server.models0 "hello" "en").2 = "HELLO" ∧
    ("HELLO" : String) ≠ "hello" :=
  ⟨rfl, by decide⟩

/-- C5 amended: translate_text returns the input unchanged whenever the
translation capability is absent (the initialized handle is None) or the
translation call raises; it is total, so a translation failure never turns a
successful response into an error. There is no special case for the target
language en: with a working translator the result is the output of the
capability, whatever the target language. -/
theorem translate_identity_on_failure
    (env : Server.Env) (m : Server.Models) (text lang : String) :
    ((Server.init_translator env m).2 = none →
      (Server.translate_text env m text lang).2 = text) ∧
    (env.transRun text lang = .error () →
      (Server.translate_text env m text lang).2 = text) ∧
    ((Server.init_translator env m).2 = some () → env.transRun text lang = .ok "HELLO" →
      (Server.translate_text env m text lang).2 = "HELLO") := by
  refine ⟨?_, ?_, ?_⟩
  · exact translate_text_id_of_none env m text lang
  · exact translate_text_id_of_error env m text lang
  · intro h1 h2
    simp only [Server.translate_text, h1, h2]

/-- C5 witness: identity with no translator library, identity when the call
raises in the everything-throws environment, and pass-through of the mangled
output with the rewriting translator. -/
theorem translate_identity_on_failure_witness :
    (Server.translate_text baseEnv Server.models0 "hello" "en").2 = "hello" ∧
    (Server.translate_text envCallThrow Server.models0 "hello" "hi").2 = "hello" ∧
    (Server.translate_text envTransMangle Server.models0 "hello" "en").2 = "HELLO" :=
  ⟨(translate_identity_on_failure baseEnv Server.models0 "hello" "en").1 rfl,
   (translate_identity_on_failure envCallThrow Server.models0 "hello" "hi").2.1 rfl,
   (translate_identity_on_failure envTransMangle Server.models0 "hello" "en").2.2 rfl rfl⟩

/-!
Claim C6.
-/

/-- C6 counterexample. The claim says a POST to the OCR endpoint with the OCR
backend unavailable yields both text and text_en equal to the fixed OCR
sentinel. The text field is the translated sentinel, so with a working
translator that rewrites its input the text field differs from the
sentinel while text_en keeps it. -/
theorem ocr_unavailable_text_can_differ_from_sentinel :
    (Server.ocr_endpoint envOcrDownTransMangle state0 "en" reqFile).2
      = .ocrJson "mangled" Server.ocrSentinel 80 "en" ∧
    ("mangled" : String) ≠ Server.ocrSentinel :=
  ⟨rfl, by decide⟩

/-- C6 amended: with the OCR backend unavailable a POST to the OCR endpoint
with language en always yields text_en equal to the fixed OCR sentinel with
confidence 80 (0.8) and language en (the canonical code passes through the
alias table unchanged), the text field being the translation of the
sentinel; text also equals the sentinel whenever the translation capability
is additionally absent or its call raises. For any input frame the OCR
pipeline output under an unavailable backend is deterministically the
sentinel at confidence 80. -/
theorem ocr_unavailable_degradation
    (env : Server.Env) (s : Server.ServerState) (req : Server.Request) (p : String) :
    Server.normalize_language "en" = "en" ∧
    ((Server.init_ocr env s.models).2 = none →
      (Server.ocr_from_image_path env s.models p).2 = (Server.ocrSentinel, 80)) ∧
    (req.method = .POST → (Server.request_upload req).isSome = true →
      (Server.init_ocr env s.models).2 = none →
      ((∃ t, (Server.ocr_endpoint env s "en" req).2
          = .ocrJson t Server.ocrSentinel 80 "en") ∧
       (((Server.init_translator env (Server.init_ocr env s.models).1).2 = none ∨
           env.transRun Server.ocrSentinel "en" = .error ()) →
         (Server.ocr_endpoint env s "en" req).2
           = .ocrJson Server.ocrSentinel Server.ocrSentinel 80 "en"))) := by
  refine ⟨by decide, ?_, ?_⟩
  · intro h
    simp only [Server.ocr_from_image_path, h]
  · intro hm hup hocr
    rcases hu : Server.request_upload req with _ | u
    · rw [hu] at hup; cases hup
    have hen : Server.normalize_language "en" = "en" := by decide
    have hpipe : Server.ocr_from_image_path env s.models env.tmpName
        = ((Server.init_ocr env s.models).1, (Server.ocrSentinel, 80)) := by
      simp only [Server.ocr_from_image_path, hocr]
    constructor
    · refine ⟨(Server.translate_text env (Server.init_ocr env s.models).1
          Server.ocrSentinel "en").2, ?_⟩
      simp only [Server.ocr_endpoint, hm, hu, hen, hpipe]
    · intro htr
      have htext : (Server.translate_text env (Server.init_ocr env s.models).1
          Server.ocrSentinel "en").2 = Server.ocrSentinel := by
        rcases htr with h | h
        · exact translate_text_id_of_none env _ Server.ocrSentinel "en" h
        · exact translate_text_id_of_error env _ Server.ocrSentinel "en" h
      simp only [Server.ocr_endpoint, hm, hu, hen, hpipe, htext]

/-- C6 witness: the degradation conjuncts applied in the no-backends
environment (OCR and translator both unavailable) to a POST carrying a file
field, from the fresh server state. -/
theorem ocr_unavailable_degradation_witness :
    (Server.ocr_from_image_path baseEnv state0.models "f.jpg").2
      = (Server.ocrSentinel, 80) ∧
    (Server.ocr_endpoint baseEnv state0 "en" reqFile).2
      = .ocrJson Server.ocrSentinel Server.ocrSentinel 80 "en" :=
  ⟨(ocr_unavailable_degradation baseEnv state0 reqFile "f.jpg").2.1 rfl,
   ((ocr_unavailable_degradation baseEnv state0 reqFile "f.jpg").2.2 rfl rfl rfl).2
     (Or.inl rfl)⟩

/-!
Claim C7.
-/

/-- C7 confirmed: a POST to any of the three endpoints whose form has
neither an image nor a file field returns exactly the fixed 400 error with
the fixed message, and the whole server state is returned unchanged - in
particular the ghost attempt and invocation counters are unchanged, so no
backend initialization and no backend call happens for such a request. -/
theorem missing_payload_rejected_without_backend_use
    (env : Server.Env) (s : Server.ServerState) (lang : String) (req : Server.Request) :
    req.method = .POST → Server.request_upload req = none →
    Server.caption_endpoint env s lang req
        = (s, .clientError 400 Server.noImageError) ∧
    Server.ocr_endpoint env s lang req
        = (s, .clientError 400 Server.noImageError) ∧
    Server.traffic_endpoint env s req
        = (s, .clientError 400 Server.noImageError) := by
  intro hm hu
  refine ⟨?_, ?_, ?_⟩
  · simp only [Server.caption_endpoint, hm, hu]
  · simp only [Server.ocr_endpoint, hm, hu]
  · simp only [Server.traffic_endpoint, hm, hu]

/-- C7 witness: the three rejections applied to a POST whose only form field
is named neither image nor file. -/
theorem missing_payload_rejected_without_backend_use_witness :
    Server.caption_endpoint envAllReady state0 "hindi" reqNoImage
        = (state0, .clientError 400 Server.noImageError) ∧
    Server.ocr_endpoint envAllReady state0 "hindi" reqNoImage
        = (state0, .clientError 400 Server.noImageError) ∧
    Server.traffic_endpoint envAllReady state0 reqNoImage
        = (state0, .clientError 400 Server.noImageError) :=
  missing_payload_rejected_without_backend_use envAllReady state0 "hindi" reqNoImage
    rfl rfl

/-!
Claim C8.
-/

/-- C8 confirmed: normalize_language lowercases its input and maps it through
the fixed alias table (hindi and HINDI map to hi, english to en; any
non-empty input maps to the table entry of its lowercasing, defaulting to the
lowercasing itself); a POST to the caption endpoint with language hindi
yields a response with language hi whose caption_en field is the untranslated
backend caption, whose caption field is its translation, and when the
translation call raises the caption field equals the caption_en field. -/
theorem caption_language_normalization
    (env : Server.Env) (s : Server.ServerState) (req : Server.Request) :
    Server.normalize_language "hindi" = "hi" ∧
    Server.normalize_language "HINDI" = "hi" ∧
    Server.normalize_language "english" = "en" ∧
    (∀ l : String, l ≠ "" →
      Server.normalize_language l
        = ((Server.LANGUAGE_ALIASES.lookup (asciiLower l)).getD (asciiLower l))) ∧
    (req.method = .POST → (Server.request_upload req).isSome = true →
      (Server.caption_endpoint env s "hindi" req).2
        = .captionJson
            (Server.translate_text env
              (Server.generate_caption_from_image_path env s.models env.tmpName).1
              (Server.generate_caption_from_image_path env s.models env.tmpName).2.1
              "hi").2
            (Server.generate_caption_from_image_path env s.models env.tmpName).2.1
            (Server.generate_caption_from_image_path env s.models env.tmpName).2.2
            "hi") ∧
    (req.method = .POST → (Server.request_upload req).isSome = true →
      env.transRun
          (Server.generate_caption_from_image_path env s.models env.tmpName).2.1 "hi"
        = .error () →
      ∃ c conf, (Server.caption_endpoint env s "hindi" req).2
        = .captionJson c c conf "hi") := by
  have hnorm : Server.normalize_language "hindi" = "hi" := by decide
  refine ⟨hnorm, by decide, by decide, ?_, ?_, ?_⟩
  · intro l hl
    simp [Server.normalize_language, hl]
  · intro hm hup
    rcases hu : Server.request_upload req with _ | u
    · rw [hu] at hup; cases hup
    simp only [Server.caption_endpoint, hm, hu, hnorm]
  · intro hm hup htr
    rcases hu : Server.request_upload req with _ | u
    · rw [hu] at hup; cases hup
    refine ⟨(Server.generate_caption_from_image_path env s.models env.tmpName).2.1,
            (Server.generate_caption_from_image_path env s.models env.tmpName).2.2, ?_⟩
    have htext := translate_text_id_of_error env
      (Server.generate_caption_from_image_path env s.models env.tmpName).1
      (Server.generate_caption_from_image_path env s.models env.tmpName).2.1 "hi" htr
    simp only [Server.caption_endpoint, hm, hu, hnorm, htext]

/-- C8 witness: the endpoint conjuncts applied in the environment with a
healthy captioning backend answering a dog running and a translator whose
calls raise, on a POST carrying a file field: caption and caption_en are both
the backend caption and the language is hi. -/
theorem caption_language_normalization_witness :
    Server.normalize_language "hindi" = "hi" ∧
    Server.normalize_language "telugu"
      = ((Server.LANGUAGE_ALIASES.lookup (asciiLower "telugu")).getD
          (asciiLower "telugu")) ∧
    (Server.caption_endpoint envCaptionOkTransThrow state0 "hindi" reqFile).2
      = .captionJson
          (Server.translate_text envCaptionOkTransThrow
            (Server.generate_caption_from_image_path envCaptionOkTransThrow
              state0.models envCaptionOkTransThrow.tmpName).1
            (Server.generate_caption_from_image_path envCaptionOkTransThrow
              state0.models envCaptionOkTransThrow.tmpName).2.1
            "hi").2
          (Server.generate_caption_from_image_path envCaptionOkTransThrow
            state0.models envCaptionOkTransThrow.tmpName).2.1
          (Server.generate_caption_from_image_path envCaptionOkTransThrow
            state0.models envCaptionOkTransThrow.tmpName).2.2
          "hi" ∧
    (∃ c conf, (Server.caption_endpoint envCaptionOkTransThrow state0 "hindi" reqFile).2
      = .captionJson c c conf "hi") :=
  ⟨(caption_language_normalization envCaptionOkTransThrow state0 reqFile).1,
   (caption_language_normalization envCaptionOkTransThrow state0 reqFile).2.2.2.1
     "telugu" (by decide),
   (caption_language_normalization envCaptionOkTransThrow state0 reqFile).2.2.2.2.1
     rfl rfl,
   (caption_language_normalization envCaptionOkTransThrow state0 reqFile).2.2.2.2.2
     rfl rfl rfl⟩

/-!
Claim C9.
-/

theorem guard_lock_inv {n : Nat} {s : Guard.Sys n} (h : Guard.Reachable s) :
    ∀ i : Fin n, s.pc i = .reading ↔ s.lockOwner = some i := by
  induction h with
  | start =>
    intro i
    simp [Guard.Sys.start]
  | step hr hst ih =>
    cases hst with
    | trigger j hj =>
      intro i
      by_cases hij : i = j
      · subst hij
        simp only [Function.update_same]
        constructor
        · intro hc; cases hc
        · intro hc
          have := (ih i).mpr hc
          rw [hj] at this; cases this
      · simpa [Function.update_noteq hij] using ih i
    | acquire j hj hlock =>
      intro i
      by_cases hij : i = j
      · subst hij
        simp [Function.update_same]
      · simp only [Function.update_noteq hij]
        constructor
        · intro hc
          have h2 := (ih i).mp hc
          rw [hlock] at h2
          cases h2
        · intro hc
          have h3 : j = i := by injection hc
          exact absurd h3.symm hij
    | readDone j ok hj hlock =>
      intro i
      by_cases hij : i = j
      · subst hij
        simp only [Function.update_same]
        constructor
        · intro hc
          cases ok <;> simp at hc
        · intro hc; cases hc
      · simp only [Function.update_noteq hij]
        constructor
        · intro hc
          have h2 := (ih i).mp hc
          rw [hlock] at h2
          have h3 : j = i := by injection h2
          exact absurd h3.symm hij
        · intro hc; cases hc
    | uploadDone j hj =>
      intro i
      by_cases hij : i = j
      · subst hij
        simp only [Function.update_same]
        constructor
        · intro hc; cases hc
        · intro hc
          have := (ih i).mpr hc
          rw [hj] at this; cases this
      · simpa [Function.update_noteq hij] using ih i
    | speakDone j hj =>
      intro i
      by_cases hij : i = j
      · subst hij
        simp only [Function.update_same]
        constructor
        · intro hc; cases hc
        · intro hc
          have := (ih i).mpr hc
          rw [hj] at this; cases this
      · simpa [Function.update_noteq hij] using ih i

/-- C9 confirmed: in every state reachable by any interleaving of concurrent
capture_and_send units, at most one unit is inside the frame-read-and-encode
section at a time (mutual exclusion on the device), the lock is held only by
a unit currently in that section, and in particular no unit in the upload or
speech phase holds the camera lock. -/
theorem capture_guard_serializes {n : Nat} (s : Guard.Sys n)
    (h : Guard.Reachable s) :
    (∀ i j : Fin n, s.pc i = .reading → s.pc j = .reading → i = j) ∧
    (∀ i : Fin n, s.lockOwner = some i → s.pc i = .reading) ∧
    (∀ i : Fin n, s.pc i = .uploading ∨ s.pc i = .speaking →
      s.lockOwner ≠ some i) := by
  refine ⟨?_, ?_, ?_⟩
  · intro i j hi hj
    have h1 := (guard_lock_inv h i).mp hi
    have h2 := (guard_lock_inv h j).mp hj
    rw [h1] at h2
    injection h2
  · intro i hi
    exact (guard_lock_inv h i).mpr hi
  · intro i hi hc
    have := (guard_lock_inv h i).mpr hc
    rcases hi with hu | hs
    · rw [hu] at this; cases this
    · rw [hs] at this; cases this

/-- C9 witness: the serialization properties applied to the initial state of
two concurrent trigger units, which is reachable by the empty interleaving. -/
theorem capture_guard_serializes_witness :
    (∀ i j : Fin 2, (Guard.Sys.start 2).pc i = .reading →
        (Guard.Sys.start 2).pc j = .reading → i = j) ∧
    (∀ i : Fin 2, (Guard.Sys.start 2).lockOwner = some i →
        (Guard.Sys.start 2).pc i = .reading) ∧
    (∀ i : Fin 2, (Guard.Sys.start 2).pc i = .uploading ∨
        (Guard.Sys.start 2).pc i = .speaking →
      (Guard.Sys.start 2).lockOwner ≠ some i) :=
  capture_guard_serializes (Guard.Sys.start 2) .start

/-!
Claim C10.
-/

/-- C10 counterexample. The claim says the temporary file is removed before
the handler returns, even when captioning, OCR or translation raises. The
source only attempts removal: os.remove sits in try-except-pass, so when it
raises (for instance because of the browser handle taken at save time) the
handler still returns its normal response with the file left on disk; and
when upload.save raises before the try block, the handler propagates the
exception with the already-created file leaked and no removal attempted. -/
theorem temp_file_can_survive_handler :
    (Server.caption_endpoint envRemoveFails state0 "en" reqFile).1.fs
      = ["/tmp/upload_aa.jpg"] ∧
    (Server.caption_endpoint envRemoveFails state0 "en" reqFile).2
      = .captionJson Server.captionSentinel Server.captionSentinel 50 "en" ∧
    state0.fs = [] ∧
    (Server.ocr_post_full envSaveRaises state0 "en" reqFile).1.fs
      = ["/tmp/upload_aa.jpg"] ∧
    (Server.ocr_post_full envSaveRaises state0 "en" reqFile).2 = .error () :=
  ⟨rfl, rfl, rfl, rfl, rfl⟩

/-- C10 amended: cleanup of the uploaded frame is best-effort. For every
POST with a valid payload to any of the three endpoints: when the pre-try
save step returns, the full handler model agrees with the endpoint function;
when the os.remove of the finally block succeeds, the temporary file is
removed before the handler returns - for every environment, including those
where captioning, OCR or translation raise at call time - so the final file
list equals the initial one; when os.remove raises, the failure is
swallowed, the handler still returns the same response as on a successful
removal, and the file persists; and when the save step raises, the exception
propagates out of the handler with the created file leaked and no removal
attempted. -/
theorem temp_file_cleanup_best_effort
    (env : Server.Env) (s : Server.ServerState) (lang : String) (req : Server.Request) :
    req.method = .POST → (Server.request_upload req).isSome = true →
    (env.saveRaises = false →
      Server.caption_post_full env s lang req
        = ((Server.caption_endpoint env s lang req).1,
           .ok (Server.caption_endpoint env s lang req).2) ∧
      Server.ocr_post_full env s lang req
        = ((Server.ocr_endpoint env s lang req).1,
           .ok (Server.ocr_endpoint env s lang req).2) ∧
      Server.traffic_post_full env s req
        = ((Server.traffic_endpoint env s req).1,
           .ok (Server.traffic_endpoint env s req).2)) ∧
    (env.removeFails = false →
      (Server.caption_endpoint env s lang req).1.fs = s.fs ∧
      (Server.ocr_endpoint env s lang req).1.fs = s.fs ∧
      (Server.traffic_endpoint env s req).1.fs = s.fs) ∧
    (env.removeFails = true →
      (Server.caption_endpoint env s lang req).1.fs = env.tmpName :: s.fs ∧
      (Server.ocr_endpoint env s lang req).1.fs = env.tmpName :: s.fs ∧
      (Server.traffic_endpoint env s req).1.fs = env.tmpName :: s.fs ∧
      (Server.caption_endpoint env s lang req).2
        = (Server.caption_endpoint { env with removeFails := false } s lang req).2 ∧
      (Server.ocr_endpoint env s lang req).2
        = (Server.ocr_endpoint { env with removeFails := false } s lang req).2 ∧
      (Server.traffic_endpoint env s req).2
        = (Server.traffic_endpoint { env with removeFails := false } s req).2) ∧
    (env.saveRaises = true →
      (Server.caption_post_full env s lang req).1.fs = env.tmpName :: s.fs ∧
      (Server.caption_post_full env s lang req).2 = .error () ∧
      (Server.ocr_post_full env s lang req).1.fs = env.tmpName :: s.fs ∧
      (Server.ocr_post_full env s lang req).2 = .error () ∧
      (Server.traffic_post_full env s req).1.fs = env.tmpName :: s.fs ∧
      (Server.traffic_post_full env s req).2 = .error ()) := by
  intro hm hup
  rcases hu : Server.request_upload req with _ | u
  · rw [hu] at hup; cases hup
  refine ⟨?_, ?_, ?_, ?_⟩
  · intro hs
    refine ⟨?_, ?_, ?_⟩
    · simp [Server.caption_post_full, Server.caption_endpoint, hm, hu,
            Server.save_upload_to_temp, hs]
    · simp [Server.ocr_post_full, Server.ocr_endpoint, hm, hu,
            Server.save_upload_to_temp, hs]
    · simp [Server.traffic_post_full, Server.traffic_endpoint, hm, hu,
            Server.save_upload_to_temp, hs]
  · intro hr
    refine ⟨?_, ?_, ?_⟩
    · simp only [Server.caption_endpoint, hm, hu, Server.remove_in_finally, hr,
                 if_false, Bool.false_eq_true]
      exact List.erase_cons_head env.tmpName s.fs
    · simp only [Server.ocr_endpoint, hm, hu, Server.remove_in_finally, hr,
                 if_false, Bool.false_eq_true]
      exact List.erase_cons_head env.tmpName s.fs
    · simp only [Server.traffic_endpoint, hm, hu, Server.remove_in_finally, hr,
                 if_false, Bool.false_eq_true]
      exact List.erase_cons_head env.tmpName s.fs
  · intro hr
    refine ⟨?_, ?_, ?_, ?_, ?_, ?_⟩
    · simp [Server.caption_endpoint, hm, hu, Server.remove_in_finally, hr]
    · simp [Server.ocr_endpoint, hm, hu, Server.remove_in_finally, hr]
    · simp [Server.traffic_endpoint, hm, hu, Server.remove_in_finally, hr]
    · simp only [Server.caption_endpoint, hm, hu]
      rfl
    · simp only [Server.ocr_endpoint, hm, hu]
      rfl
    · simp only [Server.traffic_endpoint, hm, hu]
      rfl
  · intro hs
    refine ⟨?_, ?_, ?_, ?_, ?_, ?_⟩ <;>
      simp [Server.caption_post_full, Server.ocr_post_full, Server.traffic_post_full,
            hm, hu, Server.save_upload_to_temp, hs]

/-- C10 witness: the no-raise projection and the successful cleanup applied
in the everything-throws environment (captioning, OCR and translation all
raise at call time, save and remove succeed), the persisting file in the
failing-remove environment, and the propagated save failure in the
raising-save environment, all on a POST carrying a file field. -/
theorem temp_file_cleanup_best_effort_witness :
    Server.caption_post_full envCallThrow state0 "en" reqFile
      = ((Server.caption_endpoint envCallThrow state0 "en" reqFile).1,
         .ok (Server.caption_endpoint envCallThrow state0 "en" reqFile).2) ∧
    (Server.caption_endpoint envCallThrow state0 "en" reqFile).1.fs = state0.fs ∧
    (Server.ocr_endpoint envCallThrow state0 "en" reqFile).1.fs = state0.fs ∧
    (Server.traffic_endpoint envCallThrow state0 reqFile).1.fs = state0.fs ∧
    (Server.ocr_endpoint envRemoveFails state0 "en" reqFile).1.fs
      = envRemoveFails.tmpName :: state0.fs ∧
    (Server.traffic_post_full envSaveRaises state0 reqFile).2 = .error () :=
  ⟨((temp_file_cleanup_best_effort envCallThrow state0 "en" reqFile rfl rfl).1 rfl).1,
   ((temp_file_cleanup_best_effort envCallThrow state0 "en" reqFile rfl rfl).2.1 rfl).1,
   ((temp_file_cleanup_best_effort envCallThrow state0 "en" reqFile rfl rfl).2.1 rfl).2.1,
   ((temp_file_cleanup_best_effort envCallThrow state0 "en" reqFile rfl rfl).2.1 rfl).2.2,
   ((temp_file_cleanup_best_effort envRemoveFails state0 "en" reqFile rfl rfl).2.2.1 rfl).2.1,
   ((temp_file_cleanup_best_effort envSaveRaises state0 "en" reqFile rfl rfl).2.2.2 rfl).2.2.2.2.2⟩

end Netra
